import Mathlib

/-!
Shallow embedding of `src/examples/finance/market-data/multi_broker_pipeline.py`:
a multi-broker market-data pipeline with one fully implemented provider
(`AlpacaDataProvider`), one stub provider (`ETRADEDataProvider`) and a factory
(`DataProviderFactory`).

Modelling conventions:
- Python `datetime` instants and prices are modelled as rationals (`ℚ`);
  volumes and counts as integers (`ℤ`).
- `aiohttp` transport outcomes are modelled by `HttpResult`: a successful body,
  an HTTP error status (for which `raise_for_status` raises a `ClientError`),
  or a connection-level `ClientError`.
- Python exceptions become the `PyError` type; a function that can raise
  returns `Except PyError _`.
- A JSON dictionary field that may be missing or unparsable (`bar["o"]`,
  `float(...)`, `datetime.fromisoformat(...)`) is an `Option`: `none` means
  the corresponding dictionary access or conversion raises.
- The `aiohttp.ClientSession` owned by a provider is `Option Bool`:
  `none` before `__aenter__` (the attribute is `None`), `some true` once
  opened, `some false` once closed.
- REST operations additionally report how many HTTP requests they issued
  (`RestOutcome.requests`), so that "fails before any network request" and
  "no automatic retry" are visible in the model.
-/

namespace MultiBroker

/-- `class DataProvider(Enum)`: the supported vendor identifiers. -/
inductive DataProvider
  | alpaca
  | fidelity
  | etrade
  | polygon
  | iex
deriving Repr, DecidableEq

/-- `str(provider_type)` for a `DataProvider` enum member, as Python renders it
in the factory's f-string. -/
def DataProvider.pyStr : DataProvider → String
  | .alpaca => "DataProvider.ALPACA"
  | .fidelity => "DataProvider.FIDELITY"
  | .etrade => "DataProvider.ETRADE"
  | .polygon => "DataProvider.POLYGON"
  | .iex => "DataProvider.IEX"

/-- `@dataclass MarketData`: the canonical bar/trade record. `open` is a Lean
keyword, hence the field name `open_`. -/
structure MarketData where
  symbol : String
  timestamp : ℚ
  open_ : ℚ
  high : ℚ
  low : ℚ
  close : ℚ
  volume : ℤ
  vwap : Option ℚ := none
  trade_count : Option ℤ := none
  provider : Option String := none
deriving Repr, DecidableEq

/-- `@dataclass OptionsQuote`: the canonical options-chain record. -/
structure OptionsQuote where
  symbol : String
  option_symbol : String
  timestamp : ℚ
  strike : ℚ
  expiration : ℚ
  option_type : String
  bid : ℚ
  ask : ℚ
  last : ℚ
  volume : ℤ
  open_interest : ℤ
deriving Repr, DecidableEq

/-- Python exceptions that the pipeline can raise. -/
inductive PyError
  | clientError (msg : String)
  | keyError (key : String)
  | notImplementedError (msg : String)
  | valueError (msg : String)
  | attributeError (msg : String)
  | runtimeError (msg : String)
  | wsError (msg : String)
deriving Repr, DecidableEq

/-- Outcome of one `aiohttp` GET: a 2xx body, a non-2xx status (on which
`raise_for_status` raises `aiohttp.ClientResponseError`, a `ClientError`
carrying the transport's message), or a connection-level `ClientError`. -/
inductive HttpResult (α : Type)
  | ok (body : α)
  | httpError (code : ℕ) (msg : String)
  | netError (msg : String)
deriving Repr, DecidableEq

/-- Result of a REST method: the value or raised exception, together with the
number of HTTP requests the method issued on the transport. -/
structure RestOutcome (α : Type) where
  result : Except PyError α
  requests : ℕ
deriving Repr

/-- One entry of the vendor's `"bars"` array, as the JSON dictionary seen by
the parsing loop of `get_bars`.  `none` in a required field means the
dictionary access or numeric conversion for that field raises. -/
structure BarJson where
  t : Option ℚ
  o : Option ℚ
  h : Option ℚ
  l : Option ℚ
  c : Option ℚ
  v : Option ℤ
  vw : Option ℚ := none
  n : Option ℤ := none
deriving Repr, DecidableEq

/-- The `"quote"` object of the latest-quote response. -/
structure QuoteJson where
  t : Option ℚ
  bp : Option ℚ
  ap : Option ℚ
deriving Repr, DecidableEq

/-- The state of a `MarketDataProvider` instance, as far as the connection
lifecycle is concerned: the credential pair and the `self.session` attribute
(`none` = the attribute is `None`; `some true` = an open `ClientSession`;
`some false` = a closed one). -/
structure ProviderState where
  api_key : String
  api_secret : Option String
  session : Option Bool
deriving Repr, DecidableEq

/-- `MarketDataProvider.__init__`: stores the credentials and sets
`self.session = None`. -/
def MarketDataProvider.init (api_key : String) (api_secret : Option String) :
    ProviderState :=
  { api_key := api_key, api_secret := api_secret, session := none }

/-- `MarketDataProvider.__aenter__`: creates the `aiohttp.ClientSession`. -/
def MarketDataProvider.aenter (st : ProviderState) : ProviderState :=
  { st with session := some true }

/-- `MarketDataProvider.__aexit__`: closes the session if one exists.  (The
Python runtime calls `__aexit__` on every exit path of the `async with`
block, normal or exceptional.) -/
def MarketDataProvider.aexit (st : ProviderState) : ProviderState :=
  match st.session with
  | some _ => { st with session := some false }
  | none => st

/-- Translation of one bar entry inside the loop of
`AlpacaDataProvider.get_bars`:
`MarketData(symbol=symbol, timestamp=..., open=float(bar["o"]), ...)`.
A missing or unparsable required field raises (modelled as `keyError`).
`vw`/`n` use `bar.get(...)` guarded by Python truthiness: a missing or zero
value yields `None`. -/
def parseBar (symbol : String) (b : BarJson) : Except PyError MarketData :=
  match b.t, b.o, b.h, b.l, b.c, b.v with
  | some tv, some ov, some hv, some lv, some cv, some vv =>
      .ok { symbol := symbol
            timestamp := tv
            open_ := ov
            high := hv
            low := lv
            close := cv
            volume := vv
            vwap := match b.vw with
              | some q => if q = 0 then none else some q
              | none => none
            trade_count := match b.n with
              | some k => if k = 0 then none else some k
              | none => none
            provider := some "alpaca" }
  | none, _, _, _, _, _ => .error (.keyError "t")
  | _, none, _, _, _, _ => .error (.keyError "o")
  | _, _, none, _, _, _ => .error (.keyError "h")
  | _, _, _, none, _, _ => .error (.keyError "l")
  | _, _, _, _, none, _ => .error (.keyError "c")
  | _, _, _, _, _, none => .error (.keyError "v")

/-- The `for bar in data.get("bars", []): bars.append(...)` loop.  There is no
per-entry exception handler, so the first entry whose translation raises
aborts the whole loop and the exception propagates (the surrounding `except`
clause catches only `aiohttp.ClientError`). -/
def parseBarsLoop (symbol : String) : List BarJson → Except PyError (List MarketData)
  | [] => .ok []
  | b :: rest =>
    match parseBar symbol b with
    | .ok md => (parseBarsLoop symbol rest).map (md :: ·)
    | .error e => .error e

namespace AlpacaDataProvider

/-- `AlpacaDataProvider.get_bars`.  `start`, `end_` and `timeframe` only
populate the request's query parameters; the response body is whatever the
vendor returns for that request.  `session = none` fails on the attribute
access `self.session.get` before any request is made; a transport failure is
logged and re-raised unchanged. -/
def get_bars (session : Option Bool) (symbol : String)
    (start end_ : ℚ) (timeframe : String)
    (resp : HttpResult (List BarJson)) : RestOutcome (List MarketData) :=
  match session with
  | none =>
      { result := .error (.attributeError "NoneType object has no attribute get")
        requests := 0 }
  | some false =>
      { result := .error (.runtimeError "Session is closed"), requests := 0 }
  | some true =>
    match resp with
    | .ok body => { result := parseBarsLoop symbol body, requests := 1 }
    | .httpError _ msg => { result := .error (.clientError msg), requests := 1 }
    | .netError msg => { result := .error (.clientError msg), requests := 1 }

/-- `AlpacaDataProvider.get_latest_quote`.  The body's `data["quote"]` is
`Option QuoteJson` (`none` raises `KeyError`); the successful record is the
bid/ask midpoint with zero-filled OHLV.  Transport failures are logged and
re-raised unchanged. -/
def get_latest_quote (session : Option Bool) (symbol : String)
    (resp : HttpResult (Option QuoteJson)) : RestOutcome MarketData :=
  match session with
  | none =>
      { result := .error (.attributeError "NoneType object has no attribute get")
        requests := 0 }
  | some false =>
      { result := .error (.runtimeError "Session is closed"), requests := 0 }
  | some true =>
    match resp with
    | .ok none => { result := .error (.keyError "quote"), requests := 1 }
    | .ok (some q) =>
      match q.t, q.bp, q.ap with
      | some tv, some bid, some ask =>
          { result := .ok { symbol := symbol
                            timestamp := tv
                            open_ := 0
                            high := 0
                            low := 0
                            close := (bid + ask) / 2
                            volume := 0
                            provider := some "alpaca" }
            requests := 1 }
      | none, _, _ => { result := .error (.keyError "t"), requests := 1 }
      | _, none, _ => { result := .error (.keyError "bp"), requests := 1 }
      | _, _, none => { result := .error (.keyError "ap"), requests := 1 }
    | .httpError _ msg => { result := .error (.clientError msg), requests := 1 }
    | .netError msg => { result := .error (.clientError msg), requests := 1 }

/-- `AlpacaDataProvider.get_options_chain`.  A 404 status returns `[]` before
`raise_for_status`; the success path's placeholder parse also returns `[]`;
any other HTTP error status or connection error is an `aiohttp.ClientError`,
caught by the handler which logs and returns `[]`.  The `expiration` argument
is accepted but never used by the body. -/
def get_options_chain (session : Option Bool) (symbol : String)
    (expiration : Option ℚ)
    (resp : HttpResult Unit) : RestOutcome (List OptionsQuote) :=
  match session with
  | none =>
      { result := .error (.attributeError "NoneType object has no attribute get")
        requests := 0 }
  | some false =>
      { result := .error (.runtimeError "Session is closed"), requests := 0 }
  | some true =>
    match resp with
    | .ok _ => { result := .ok [], requests := 1 }
    | .httpError code _ =>
        if code = 404 then { result := .ok [], requests := 1 }
        else { result := .ok [], requests := 1 }
    | .netError _ => { result := .ok [], requests := 1 }

end AlpacaDataProvider

/-- One event envelope of an inbound WebSocket message (a JSON dictionary).
`T` is `item.get("T")` (the type discriminator, `none` when absent); the
remaining fields are the trade payload, `none` when the corresponding
`item[...]` access would raise `KeyError`. -/
structure Envelope where
  T : Option String
  S : Option String := none
  t : Option ℤ := none
  p : Option ℚ := none
  s : Option ℤ := none
deriving Repr, DecidableEq

/-- Translation of a trade envelope inside `stream_trades`:
`MarketData(symbol=item["S"], timestamp=datetime.fromtimestamp(item["t"]/1000),
open=0, high=0, low=0, close=float(item["p"]), volume=int(item["s"]),
provider="alpaca")`.  Fields are read in the constructor's evaluation order;
a missing field raises `KeyError`. -/
def translateTrade (e : Envelope) : Except PyError MarketData :=
  match e.S, e.t, e.p, e.s with
  | some sym, some tv, some pv, some sv =>
      .ok { symbol := sym
            timestamp := (tv : ℚ) / 1000
            open_ := 0
            high := 0
            low := 0
            close := pv
            volume := sv
            provider := some "alpaca" }
  | none, _, _, _ => .error (.keyError "S")
  | _, none, _, _ => .error (.keyError "t")
  | _, _, none, _ => .error (.keyError "p")
  | _, _, _, none => .error (.keyError "s")

/-- The `for item in data:` loop over one inbound message batch: envelopes
whose discriminator equals `"t"` are translated and pushed to the callback,
all other envelopes are skipped.  Returns the records pushed (in order) and,
when a translation raised, the exception; records pushed before the raising
envelope have already reached the callback. -/
def processEnvelopes : List Envelope → List MarketData × Option PyError
  | [] => ([], none)
  | e :: rest =>
    if e.T = some "t" then
      match translateTrade e with
      | .ok md =>
          let r := processEnvelopes rest
          (md :: r.1, r.2)
      | .error err => ([], some err)
    else processEnvelopes rest

/-- The `async for message in websocket:` receive loop: each inbound message
is a batch of envelopes; processing stops at the first raising envelope. -/
def processBatches : List (List Envelope) → List MarketData × Option PyError
  | [] => ([], none)
  | batch :: rest =>
    match processEnvelopes batch with
    | (ms, some err) => (ms, some err)
    | (ms, none) =>
        let r := processBatches rest
        (ms ++ r.1, r.2)

/-- The transport's side of one streaming session: the raw text of the single
auth reply and the single subscribe reply (awaited once each and logged), the
inbound message batches that follow, and `terminal` — `some msg` when the
connection ends with a `websockets` exception (logged and re-raised), `none`
when it closes cleanly. -/
structure StreamScript where
  authResponse : String
  subResponse : String
  messages : List (List Envelope)
  terminal : Option String := none
deriving Repr, DecidableEq

/-- A message sent by the client on the WebSocket. -/
inductive WsSent
  | auth (key : String) (secret : Option String)
  | subscribe (symbols : List String)
deriving Repr, DecidableEq

/-- What one run of `stream_trades` did: the messages it sent, the records it
pushed to the callback (in order), and how the call ended. -/
structure StreamRun where
  sent : List WsSent
  emitted : List MarketData
  result : Except PyError Unit
deriving Repr

/-- `AlpacaDataProvider.stream_trades`: sends the auth message, awaits one
reply (logged, never inspected), sends the subscription for the full symbol
set, awaits one reply (logged, never inspected), then enters the receive
loop.  A `KeyError` inside the loop propagates (the handler catches only
`WebSocketException`); a transport exception is logged and re-raised. -/
def AlpacaDataProvider.stream_trades (api_key : String) (api_secret : Option String)
    (symbols : List String) (script : StreamScript) : StreamRun :=
  let r := processBatches script.messages
  { sent := [WsSent.auth api_key api_secret, WsSent.subscribe symbols]
    emitted := r.1
    result :=
      match r.2 with
      | some e => .error e
      | none =>
        match script.terminal with
        | some m => .error (.wsError m)
        | none => .ok () }

namespace ETRADEDataProvider

/-- `ETRADEDataProvider.get_bars`: logs a warning about OAuth and returns an
empty list (a successful result). -/
def get_bars (symbol : String) (start end_ : ℚ) (timeframe : String) :
    Except PyError (List MarketData) :=
  .ok []

/-- `ETRADEDataProvider.get_latest_quote`: raises `NotImplementedError`. -/
def get_latest_quote (symbol : String) : Except PyError MarketData :=
  .error (.notImplementedError "E*TRADE OAuth implementation required")

/-- `ETRADEDataProvider.stream_trades`: raises `NotImplementedError`. -/
def stream_trades (symbols : List String) : Except PyError Unit :=
  .error (.notImplementedError "E*TRADE streaming not available")

/-- `ETRADEDataProvider.get_options_chain`: logs a warning and returns an
empty list (a successful result). -/
def get_options_chain (symbol : String) (expiration : Option ℚ) :
    Except PyError (List OptionsQuote) :=
  .ok []

end ETRADEDataProvider

/-- A constructed provider instance, carrying only the credentials it was
given (construction performs no I/O; `__init__` merely stores them and sets
`session = None`). -/
inductive ProviderInstance
  | alpacaProvider (api_key : String) (api_secret : Option String)
  | etradeProvider (api_key : String) (api_secret : Option String)
deriving Repr, DecidableEq

/-- `DataProviderFactory.create_provider`: `ALPACA` and `ETRADE` construct
their providers; `FIDELITY` raises `NotImplementedError`; every other member
(`POLYGON`, `IEX`) falls through to the `else` branch, which raises
`ValueError(f"Unknown provider: \x7bprovider_type\x7d")`. -/
def DataProviderFactory.create_provider (provider_type : DataProvider)
    (api_key : String) (api_secret : Option String) :
    Except PyError ProviderInstance :=
  match provider_type with
  | .alpaca => .ok (.alpacaProvider api_key api_secret)
  | .etrade => .ok (.etradeProvider api_key api_secret)
  | .fidelity => .error (.notImplementedError "Fidelity provider not yet implemented")
  | other => .error (.valueError ("Unknown provider: " ++ other.pyStr))

/-- `needle` occurs as a contiguous run at the head of `hay`. -/
def headMatches : List Char → List Char → Bool
  | [], _ => true
  | _ :: _, [] => false
  | a :: as, b :: bs => a == b && headMatches as bs

/-- `needle` occurs as a contiguous substring of `hay` (used to state that an
error message does or does not identify a symbol or operation). -/
def containsChars (needle : List Char) : List Char → Bool
  | [] => headMatches needle []
  | b :: bs => headMatches needle (b :: bs) || containsChars needle bs

/-- String-level substring test. -/
def mentions (needle hay : String) : Bool :=
  containsChars needle.toList hay.toList

/-- A well-formed vendor bar entry (used in concrete scenarios). -/
def sampleBar (tv : ℚ) : BarJson :=
  { t := some tv, o := some 10, h := some 12, l := some 9, c := some 11, v := some 100 }

/-- A malformed vendor bar entry: the `"o"` key is absent, so `float(bar["o"])`
raises `KeyError` during translation. -/
def malformedBar : BarJson :=
  { t := some 2, o := none, h := some 12, l := some 9, c := some 11, v := some 100 }

/-- A transport script in which the single awaited auth reply is an
authentication rejection (Alpaca's error envelope for failed auth), after
which the transport still delivers one batch holding one trade event. -/
def rejectionScript : StreamScript :=
  { authResponse := "[\x7b\"T\":\"error\",\"code\":402,\"msg\":\"auth failed\"\x7d]"
    subResponse := "[\x7b\"T\":\"error\",\"code\":410,\"msg\":\"not authenticated\"\x7d]"
    messages := [[{ T := some "t", S := some "AAPL", t := some 1000, p := some 150, s := some 10 }]]
    terminal := none }

/-- A transport script whose accepted handshake is followed by two batches
mixing status envelopes with one trade envelope. -/
def mixedScript : StreamScript :=
  { authResponse := "[\x7b\"T\":\"success\",\"msg\":\"authenticated\"\x7d]"
    subResponse := "[\x7b\"T\":\"subscription\",\"trades\":[\"AAPL\"]\x7d]"
    messages :=
      [[{ T := some "success" },
        { T := some "t", S := some "AAPL", t := some 2000, p := some 101, s := some 5 }],
       [{ T := some "subscription" }]]
    terminal := none }

/-- The vendor quote used in concrete latest-quote scenarios. -/
def sampleQuoteJson : QuoteJson := { t := some 5, bp := some 10, ap := some 12 }

/-- The record `get_latest_quote` produces for `sampleQuoteJson`. -/
def sampleQuoteRecord : MarketData :=
  { symbol := "AAPL", timestamp := 5, open_ := 0, high := 0, low := 0,
    close := ((10 : ℚ) + 12) / 2, volume := 0, provider := some "alpaca" }

/-- A vendor batch violating all three bar invariants: the first entry has
`high = 1 < 2 = low` and timestamp `100` outside `[0, 10]`, and the second
entry's timestamp `50` decreases. -/
def c9BadBatch : List BarJson :=
  [{ t := some 100, o := some 1, h := some 1, l := some 2, c := some 1, v := some 5 },
   { t := some 50, o := some 1, h := some 3, l := some 1, c := some 2, v := some 5 }]

/-- A well-formed vendor batch with ascending timestamps inside `[0, 10]`. -/
def c9GoodBatch : List BarJson := [sampleBar 1, sampleBar 3]

/-- The record `get_bars` produces for `sampleBar tv`. -/
def sampleRec (tv : ℚ) : MarketData :=
  { symbol := "AAPL", timestamp := tv, open_ := 10, high := 12, low := 9, close := 11,
    volume := 100, provider := some "alpaca" }

/-- The per-record bar invariant of the spec: `high ≥ low` and the timestamp
lies within the requested `[start, end]` window. -/
def barInvariant (start end_ : ℚ) (md : MarketData) : Prop :=
  md.low ≤ md.high ∧ start ≤ md.timestamp ∧ md.timestamp ≤ end_

/-- Non-decreasing timestamps between adjacent records. -/
def tsMono (a b : MarketData) : Prop := a.timestamp ≤ b.timestamp

/-- Non-decreasing timestamps between adjacent vendor bar entries (stated on
whatever timestamps the entries carry). -/
def barTsMono (b b' : BarJson) : Prop :=
  ∀ tv tv', b.t = some tv → b'.t = some tv' → tv ≤ tv'

/-! ### Helper lemmas -/

/-- A successful parsing loop establishes a pointwise translation relation
between the vendor batch and the returned records. -/
theorem parseBarsLoop_forall₂ (symbol : String) :
    ∀ (batch : List BarJson) (mds : List MarketData),
      parseBarsLoop symbol batch = .ok mds →
      List.Forall₂ (fun b md => parseBar symbol b = .ok md) batch mds := by
  intro batch
  induction batch with
  | nil =>
      intro mds h
      simp only [parseBarsLoop] at h
      cases h
      exact List.Forall₂.nil
  | cons b rest ih =>
      intro mds h
      simp only [parseBarsLoop] at h
      cases hpb : parseBar symbol b with
      | error e => rw [hpb] at h; cases h
      | ok md =>
          rw [hpb] at h
          cases hrest : parseBarsLoop symbol rest with
          | error e => rw [hrest] at h; cases h
          | ok mds' =>
              rw [hrest] at h
              simp only [Except.map] at h
              cases h
              exact List.Forall₂.cons hpb (ih mds' hrest)

/-- A successfully translated bar carries exactly the vendor entry's
timestamp, high and low. -/
theorem parseBar_ok_fields (symbol : String) (b : BarJson) (md : MarketData)
    (h : parseBar symbol b = .ok md) :
    b.t = some md.timestamp ∧ b.h = some md.high ∧ b.l = some md.low := by
  obtain ⟨bt, bo, bh, bl, bc, bv, bvw, bn⟩ := b
  cases bt <;> cases bo <;> cases bh <;> cases bl <;> cases bc <;> cases bv <;>
    cases h <;> exact ⟨rfl, rfl, rfl⟩

/-- Each element on the right of a `Forall₂` has a related element on the
left. -/
theorem forall₂_mem_right {α β : Type} {R : α → β → Prop} :
    ∀ {l₁ : List α} {l₂ : List β}, List.Forall₂ R l₁ l₂ →
      ∀ b ∈ l₂, ∃ a ∈ l₁, R a b := by
  intro l₁ l₂ hf
  induction hf with
  | nil => intro b hb; cases hb
  | cons h _ ih =>
      intro b hb
      rcases List.mem_cons.mp hb with hb | hb
      · exact ⟨_, List.mem_cons_self _ _, hb ▸ h⟩
      · obtain ⟨a, ha, hr⟩ := ih b hb
        exact ⟨a, List.mem_cons_of_mem _ ha, hr⟩

/-- `Chain'` transfers along a `Forall₂` relation when the relations are
compatible. -/
theorem chain'_of_forall₂ {α β : Type} {R : α → β → Prop} {S : α → α → Prop}
    {T : β → β → Prop}
    (hcompat : ∀ a a' b b', R a b → R a' b' → S a a' → T b b') :
    ∀ {l₁ : List α} {l₂ : List β}, List.Forall₂ R l₁ l₂ →
      List.Chain' S l₁ → List.Chain' T l₂ := by
  intro l₁ l₂ hf
  induction hf with
  | nil => intro _; exact List.chain'_nil
  | @cons a b l₁' l₂' h htail ih =>
      intro hchain
      cases htail with
      | nil => exact List.chain'_singleton b
      | @cons a' b' l₁'' l₂'' h2 htail2 =>
          rw [List.chain'_cons] at hchain
          exact List.chain'_cons.mpr
            ⟨hcompat a a' b b' h h2 hchain.1,
             ih hchain.2⟩

/-- If every entry of a head segment translates, the first failing entry's
exception is the outcome of the whole parsing loop. -/
theorem parseBarsLoop_append_error (symbol : String)
    (bad : BarJson) (post : List BarJson) (e : PyError)
    (hbad : parseBar symbol bad = .error e) :
    ∀ (pre : List BarJson), (∀ b ∈ pre, ∃ md, parseBar symbol b = .ok md) →
      parseBarsLoop symbol (pre ++ bad :: post) = .error e := by
  intro pre
  induction pre with
  | nil =>
      intro _
      simp only [List.nil_append, parseBarsLoop, hbad]
  | cons b rest ih =>
      intro hpre
      obtain ⟨md, hmd⟩ := hpre b (List.mem_cons_self _ _)
      have hrest := ih fun b' hb' => hpre b' (List.mem_cons_of_mem _ hb')
      rw [List.cons_append]
      simp only [parseBarsLoop, hmd]
      rw [hrest]
      rfl

/-- When every trade-tagged envelope of a batch translates, the batch loop
pushes exactly the translations of the trade-tagged envelopes, in order, and
raises nothing. -/
theorem processEnvelopes_wf :
    ∀ (batch : List Envelope),
      (∀ e ∈ batch, e.T = some "t" → (translateTrade e).isOk) →
      processEnvelopes batch =
        ((batch.filter fun e => decide (e.T = some "t")).filterMap
          fun e => (translateTrade e).toOption, none) := by
  intro batch
  induction batch with
  | nil => intro _; rfl
  | cons e rest ih =>
      intro hwf
      have hrest := ih fun e' he' ht => hwf e' (List.mem_cons_of_mem _ he') ht
      by_cases hT : e.T = some "t"
      · have hok := hwf e (List.mem_cons_self _ _) hT
        cases htr : translateTrade e with
        | error err => rw [htr] at hok; cases hok
        | ok md =>
            simp [processEnvelopes, hT, htr, hrest, List.filter_cons,
              List.filterMap_cons, Except.toOption]
      · simp [processEnvelopes, hT, hrest, List.filter_cons]

/-- When every trade-tagged envelope of every batch translates, the receive
loop pushes exactly the translations of the trade-tagged envelopes of the
concatenated batches, in order, and raises nothing. -/
theorem processBatches_wf :
    ∀ (msgs : List (List Envelope)),
      (∀ e ∈ msgs.flatten, e.T = some "t" → (translateTrade e).isOk) →
      processBatches msgs =
        ((msgs.flatten.filter fun e => decide (e.T = some "t")).filterMap
          fun e => (translateTrade e).toOption, none) := by
  intro msgs
  induction msgs with
  | nil => intro _; rfl
  | cons batch rest ih =>
      intro hwf
      have hbatch := processEnvelopes_wf batch fun e he ht =>
        hwf e (by rw [List.flatten_cons]; exact List.mem_append_left _ he) ht
      have hrest := ih fun e he ht =>
        hwf e (by rw [List.flatten_cons]; exact List.mem_append_right _ he) ht
      simp only [processBatches, hbatch, hrest, List.flatten_cons, List.filter_append,
        List.filterMap_append]

/-- Inversion for a successful `get_latest_quote`: the transport returned a
quote object with bid, ask, timestamp all present, and the result is the
zero-filled midpoint record. -/
theorem get_latest_quote_ok_inv (session : Option Bool) (symbol : String)
    (resp : HttpResult (Option QuoteJson)) (md : MarketData)
    (h : (AlpacaDataProvider.get_latest_quote session symbol resp).result = .ok md) :
    ∃ q tv bid ask, resp = .ok (some q) ∧ q.t = some tv ∧ q.bp = some bid ∧
      q.ap = some ask ∧
      md = { symbol := symbol, timestamp := tv, open_ := 0, high := 0, low := 0,
             close := (bid + ask) / 2, volume := 0, provider := some "alpaca" } := by
  rcases session with _ | b
  · cases h
  cases b
  · cases h
  rcases resp with body | ⟨code, msg⟩ | msg
  · rcases body with _ | q
    · cases h
    · obtain ⟨qt, qbp, qap⟩ := q
      cases qt <;> cases qbp <;> cases qap <;> cases h
      exact ⟨_, _, _, _, rfl, rfl, rfl, rfl, rfl⟩
  · cases h
  · cases h

/-- A successfully translated trade envelope yields exactly the record the
claimed per-event translation describes. -/
theorem translateTrade_ok_fields (e : Envelope) (md : MarketData)
    (h : translateTrade e = .ok md) :
    md.open_ = 0 ∧ md.high = 0 ∧ md.low = 0 ∧ md.provider = some "alpaca" ∧
    e.p = some md.close ∧ e.s = some md.volume ∧
    ∃ tv, e.t = some tv ∧ md.timestamp = (tv : ℚ) / 1000 := by
  obtain ⟨eT, eS, et, ep, es⟩ := e
  cases eS <;> cases et <;> cases ep <;> cases es <;> cases h
  exact ⟨rfl, rfl, rfl, rfl, rfl, rfl, _, rfl, rfl⟩

/-! ### Claims -/

/-- Claim C2, counterexample: the claim says every unsupported operation of
the stub provider fails with a capability-not-supported error and never
returns an empty sequence as a successful result.  At the concrete input
`("AAPL", 0, 1, "1D")` the stub's `get_bars` returns `Except.ok []` — an
empty sequence as a successful result, not an error — and so does
`get_options_chain`. -/
theorem claim_C2_counterexample :
    ETRADEDataProvider.get_bars "AAPL" 0 1 "1D" = Except.ok ([] : List MarketData) ∧
    ETRADEDataProvider.get_options_chain "AAPL" none =
      Except.ok ([] : List OptionsQuote) :=
  ⟨rfl, rfl⟩

/-- Claim C2, amended: of the stub provider's four unsupported operations,
`get_latest_quote` and `stream_trades` fail with a distinguishable
`NotImplementedError`, but `get_bars` and `get_options_chain` return an empty
sequence as a successful result (a silent empty success). -/
theorem claim_C2 (symbol : String) (start end_ : ℚ) (timeframe : String)
    (expiration : Option ℚ) (symbols : List String) :
    ETRADEDataProvider.get_bars symbol start end_ timeframe = .ok [] ∧
    ETRADEDataProvider.get_options_chain symbol expiration = .ok [] ∧
    ETRADEDataProvider.get_latest_quote symbol =
      .error (.notImplementedError "E*TRADE OAuth implementation required") ∧
    ETRADEDataProvider.stream_trades symbols =
      .error (.notImplementedError "E*TRADE streaming not available") :=
  ⟨rfl, rfl, rfl, rfl⟩

/-- Claim C3, counterexample: the claim says a recognized but unimplemented
vendor (it names Polygon and IEX among them) fails with a "not implemented"
error distinct from the "unknown provider" error.  At the concrete input
`POLYGON` — a member of the `DataProvider` enum, hence a recognized vendor —
the factory raises `ValueError("Unknown provider: ...")`, not
`NotImplementedError`. -/
theorem claim_C3_counterexample :
    DataProviderFactory.create_provider .polygon "key" none =
      Except.error (.valueError "Unknown provider: DataProvider.POLYGON") :=
  rfl

/-- Claim C3, amended: the factory performs pure construction (no I/O):
`ALPACA` and `ETRADE` yield provider instances carrying only the credentials;
`FIDELITY` fails with the distinct `NotImplementedError`; but `POLYGON` and
`IEX`, though recognized enum members, fall through to the `else` branch and
fail with the "unknown provider" `ValueError` — only Fidelity's missing
integration is distinguishable from an unknown vendor. -/
theorem claim_C3 (api_key : String) (api_secret : Option String) :
    DataProviderFactory.create_provider .alpaca api_key api_secret =
      .ok (.alpacaProvider api_key api_secret) ∧
    DataProviderFactory.create_provider .etrade api_key api_secret =
      .ok (.etradeProvider api_key api_secret) ∧
    DataProviderFactory.create_provider .fidelity api_key api_secret =
      .error (.notImplementedError "Fidelity provider not yet implemented") ∧
    DataProviderFactory.create_provider .polygon api_key api_secret =
      .error (.valueError "Unknown provider: DataProvider.POLYGON") ∧
    DataProviderFactory.create_provider .iex api_key api_secret =
      .error (.valueError "Unknown provider: DataProvider.IEX") :=
  ⟨rfl, rfl, rfl, rfl, rfl⟩

/-- Claim C4: every successful `get_latest_quote` result has `close` equal to
the midpoint `(bid + ask) / 2` of the vendor-reported best bid and ask, and
`open`, `high`, `low` and `volume` all zero. -/
theorem claim_C4 (session : Option Bool) (symbol : String)
    (resp : HttpResult (Option QuoteJson)) (md : MarketData)
    (h : (AlpacaDataProvider.get_latest_quote session symbol resp).result = .ok md) :
    md.open_ = 0 ∧ md.high = 0 ∧ md.low = 0 ∧ md.volume = 0 ∧
    ∃ q bid ask, resp = .ok (some q) ∧ q.bp = some bid ∧ q.ap = some ask ∧
      md.close = (bid + ask) / 2 := by
  obtain ⟨q, tv, bid, ask, hresp, ht, hbp, hap, hmd⟩ :=
    get_latest_quote_ok_inv session symbol resp md h
  subst hmd
  exact ⟨rfl, rfl, rfl, rfl, q, bid, ask, hresp, hbp, hap, rfl⟩

/-- Claim C4, witness: the quote-only zero-fill invariant at the concrete
quote `bid = 10, ask = 12`. -/
theorem claim_C4_witness :
    sampleQuoteRecord.open_ = 0 ∧ sampleQuoteRecord.high = 0 ∧
    sampleQuoteRecord.low = 0 ∧ sampleQuoteRecord.volume = 0 :=
  let h := claim_C4 (some true) "AAPL" (.ok (some sampleQuoteJson))
    sampleQuoteRecord rfl
  ⟨h.1, h.2.1, h.2.2.1, h.2.2.2.1⟩

/-- Claim C5: on the fully implemented provider, a 404 transport status makes
`get_options_chain` return the empty sequence as a non-error result, and every
other transport failure (any other HTTP error status, any connection-level
`ClientError`) also degrades to an empty-sequence success — the logged
soft-fail — instead of propagating an error to the caller. -/
theorem claim_C5 (symbol : String) (expiration : Option ℚ) (code : ℕ)
    (msg nmsg : String) :
    (AlpacaDataProvider.get_options_chain (some true) symbol expiration
        (.httpError 404 msg)).result = .ok [] ∧
    (AlpacaDataProvider.get_options_chain (some true) symbol expiration
        (.httpError code msg)).result = .ok [] ∧
    (AlpacaDataProvider.get_options_chain (some true) symbol expiration
        (.netError nmsg)).result = .ok [] := by
    refine ⟨rfl, ?_, rfl⟩
    by_cases h404 : code = 404
    · subst h404; rfl
    · simp [AlpacaDataProvider.get_options_chain, h404]

/-- Claim C6, counterexample: the claim says a transport failure during a
bars or quote fetch propagates an error identifying the failing operation and
symbol.  At the concrete input: symbol `"AAPL"`, a connection-level failure
`"Connection refused"` — the code logs and re-raises the original transport
error unchanged, so the caller receives an error whose message mentions
neither the symbol `"AAPL"` nor the operation (`"bars"`/`"quote"`). -/
theorem claim_C6_counterexample :
    (AlpacaDataProvider.get_bars (some true) "AAPL" 0 1 "1D"
        (.netError "Connection refused")).result =
      .error (.clientError "Connection refused") ∧
    (AlpacaDataProvider.get_latest_quote (some true) "AAPL"
        (.netError "Connection refused")).result =
      .error (.clientError "Connection refused") ∧
    mentions "AAPL" "Connection refused" = false ∧
    mentions "bars" "Connection refused" = false ∧
    mentions "quote" "Connection refused" = false :=
  ⟨rfl, rfl, rfl, rfl, rfl⟩

/-- Claim C6, amended: a transport failure during a bars or quote fetch
propagates to the caller as the original `ClientError`, unmodified — so it
identifies the failing operation and symbol only insofar as the transport's
own message does — with exactly one request issued (no automatic retry) and
no fallback value substituted. -/
theorem claim_C6 (symbol : String) (start end_ : ℚ) (timeframe : String)
    (code : ℕ) (msg nmsg : String) :
    AlpacaDataProvider.get_bars (some true) symbol start end_ timeframe
        (.netError nmsg) = ⟨.error (.clientError nmsg), 1⟩ ∧
    AlpacaDataProvider.get_bars (some true) symbol start end_ timeframe
        (.httpError code msg) = ⟨.error (.clientError msg), 1⟩ ∧
    AlpacaDataProvider.get_latest_quote (some true) symbol (.netError nmsg) =
      ⟨.error (.clientError nmsg), 1⟩ ∧
    AlpacaDataProvider.get_latest_quote (some true) symbol (.httpError code msg) =
      ⟨.error (.clientError msg), 1⟩ :=
  ⟨rfl, rfl, rfl, rfl⟩

/-- Claim C1, counterexample: the claim says that when the authentication
response is a rejection, the session moves to `Failed` and never sends the
subscription message or enters the receive loop.  At the concrete input
`rejectionScript` — whose single auth reply is Alpaca's auth-failure error
envelope — the session still sends the subscription message, still enters the
receive loop (a trade record reaches the sink), and completes without
error. -/
theorem claim_C1_counterexample :
    WsSent.subscribe ["AAPL"] ∈
      (AlpacaDataProvider.stream_trades "key" (some "secret") ["AAPL"]
        rejectionScript).sent ∧
    (AlpacaDataProvider.stream_trades "key" (some "secret") ["AAPL"]
        rejectionScript).emitted =
      [{ symbol := "AAPL", timestamp := ((1000 : ℤ) : ℚ) / 1000, open_ := 0, high := 0,
         low := 0, close := 150, volume := 10, provider := some "alpaca" }] ∧
    (AlpacaDataProvider.stream_trades "key" (some "secret") ["AAPL"]
        rejectionScript).result = .ok () :=
  ⟨List.mem_cons_of_mem _ (List.mem_cons_self _ _), rfl, rfl⟩

/-- Claim C1, amended: the session awaits the auth response but only logs it —
it never inspects it.  The run (messages sent, records emitted, outcome) is
identical for any two transport scripts agreeing on the post-handshake
messages and terminal event, rejection or not; the subscription message is
always sent.  A failure state is reached only through a transport
exception. -/
theorem claim_C1 (api_key : String) (api_secret : Option String)
    (symbols : List String) (s1 s2 : StreamScript)
    (hmsgs : s1.messages = s2.messages) (hterm : s1.terminal = s2.terminal) :
    AlpacaDataProvider.stream_trades api_key api_secret symbols s1 =
      AlpacaDataProvider.stream_trades api_key api_secret symbols s2 ∧
    WsSent.subscribe symbols ∈
      (AlpacaDataProvider.stream_trades api_key api_secret symbols s1).sent := by
  constructor
  · unfold AlpacaDataProvider.stream_trades
    rw [hmsgs, hterm]
  · exact List.mem_cons_of_mem _ (List.mem_cons_self _ _)

/-- Claim C1, witness: the run on the rejection script equals the run on the
same script with an accepting auth reply, and the subscription is sent. -/
theorem claim_C1_witness :
    (AlpacaDataProvider.stream_trades "key" (some "secret") ["AAPL"] rejectionScript =
      AlpacaDataProvider.stream_trades "key" (some "secret") ["AAPL"]
        { rejectionScript with
            authResponse := "[\x7b\"T\":\"success\",\"msg\":\"authenticated\"\x7d]" }) ∧
    WsSent.subscribe ["AAPL"] ∈
      (AlpacaDataProvider.stream_trades "key" (some "secret") ["AAPL"]
        rejectionScript).sent :=
  claim_C1 "key" (some "secret") ["AAPL"] rejectionScript
    { rejectionScript with
        authResponse := "[\x7b\"T\":\"success\",\"msg\":\"authenticated\"\x7d]" }
    rfl rfl

/-- Claim C7, counterexample: the claim says a malformed entry in a bar batch
is skipped and the rest of the batch is still returned.  At the concrete
batch `[sampleBar 1, malformedBar, sampleBar 3]` — whose middle entry lacks
the `"o"` key — `get_bars` aborts the whole fetch with the `KeyError` and
returns none of the well-formed entries. -/
theorem claim_C7_counterexample :
    (AlpacaDataProvider.get_bars (some true) "AAPL" 0 10 "1D"
        (.ok [sampleBar 1, malformedBar, sampleBar 3])).result =
      .error (.keyError "o") :=
  rfl

/-- Claim C7, amended: a translation error on a single malformed entry aborts
the entire historical-bars fetch — the first failing entry's exception
propagates (the handler catches only transport errors) and none of the
batch's records are returned. -/
theorem claim_C7 (symbol : String) (start end_ : ℚ) (timeframe : String)
    (pre : List BarJson) (bad : BarJson) (post : List BarJson) (e : PyError)
    (hpre : ∀ b ∈ pre, ∃ md, parseBar symbol b = .ok md)
    (hbad : parseBar symbol bad = .error e) :
    (AlpacaDataProvider.get_bars (some true) symbol start end_ timeframe
        (.ok (pre ++ bad :: post))).result = .error e :=
  parseBarsLoop_append_error symbol bad post e hbad pre hpre

/-- Claim C7, witness: the abort-on-malformed-entry behaviour at a concrete
batch whose second entry is malformed. -/
theorem claim_C7_witness :
    (AlpacaDataProvider.get_bars (some true) "MSFT" 0 10 "1D"
        (.ok [sampleBar 1, malformedBar, sampleBar 3, sampleBar 4])).result =
      .error (.keyError "o") :=
  claim_C7 "MSFT" 0 10 "1D" [sampleBar 1] malformedBar [sampleBar 3, sampleBar 4]
    (.keyError "o")
    (by
      intro b hb
      rw [List.mem_singleton] at hb
      subst hb
      exact ⟨_, rfl⟩)
    rfl

/-- Claim C8: in an active trade stream, exactly the envelopes tagged `"t"`
are translated and pushed to the sink, one record per trade event, in the
order received from the transport (given that the trade-tagged envelopes are
well-formed); every pushed record has `open = high = low = 0`, the provider
tag set, `close` the trade price, `volume` the trade size and timestamp from
the vendor's epoch-millis; non-trade envelopes never reach the sink. -/
theorem claim_C8 (api_key : String) (api_secret : Option String)
    (symbols : List String) (script : StreamScript)
    (hwf : ∀ e ∈ script.messages.flatten, e.T = some "t" → (translateTrade e).isOk) :
    (AlpacaDataProvider.stream_trades api_key api_secret symbols script).emitted =
      ((script.messages.flatten.filter fun e => decide (e.T = some "t")).filterMap
        fun e => (translateTrade e).toOption) ∧
    ∀ md ∈ (AlpacaDataProvider.stream_trades api_key api_secret symbols script).emitted,
      md.open_ = 0 ∧ md.high = 0 ∧ md.low = 0 ∧ md.provider = some "alpaca" ∧
      ∃ e ∈ script.messages.flatten, e.T = some "t" ∧ e.p = some md.close ∧
        e.s = some md.volume ∧ ∃ tv, e.t = some tv ∧ md.timestamp = (tv : ℚ) / 1000 := by
  have hpb := processBatches_wf script.messages hwf
  have hemit : (AlpacaDataProvider.stream_trades api_key api_secret symbols
      script).emitted =
      ((script.messages.flatten.filter fun e => decide (e.T = some "t")).filterMap
        fun e => (translateTrade e).toOption) := by
    show (processBatches script.messages).1 = _
    rw [hpb]
  refine ⟨hemit, ?_⟩
  intro md hmd
  rw [hemit] at hmd
  obtain ⟨e, hefil, hetr⟩ := List.mem_filterMap.mp hmd
  obtain ⟨heflat, hT⟩ := List.mem_filter.mp hefil
  have hT' : e.T = some "t" := of_decide_eq_true hT
  have htr : translateTrade e = .ok md := by
    cases h' : translateTrade e with
    | ok md' => rw [h'] at hetr; cases hetr; rfl
    | error err => rw [h'] at hetr; cases hetr
  obtain ⟨h1, h2, h3, h4, h5, h6, tv, h7, h8⟩ := translateTrade_ok_fields e md htr
  exact ⟨h1, h2, h3, h4, e, heflat, hT', h5, h6, tv, h7, h8⟩

/-- Claim C8, witness: on a concrete script whose batches mix status
envelopes with one trade envelope, the sink receives exactly the translated
trade events. -/
theorem claim_C8_witness :
    (AlpacaDataProvider.stream_trades "key" none ["AAPL"] mixedScript).emitted =
      ((mixedScript.messages.flatten.filter fun e => decide (e.T = some "t")).filterMap
        fun e => (translateTrade e).toOption) :=
  (claim_C8 "key" none ["AAPL"] mixedScript (by decide)).1

/-- Claim C9, counterexample: the claim says every successful `get_bars`
result has non-decreasing timestamps within `[start, end]` and `high ≥ low`.
At the concrete input `start = 0, end = 10` with vendor batch `c9BadBatch`,
`get_bars` succeeds and returns records whose first element has
`high = 1 < 2 = low` and timestamp `100 ∉ [0, 10]`, and whose timestamps
decrease (`100 > 50`): the code performs no validation of vendor data. -/
theorem claim_C9_counterexample :
    (AlpacaDataProvider.get_bars (some true) "AAPL" 0 10 "1D"
        (.ok c9BadBatch)).result =
      .ok [{ symbol := "AAPL", timestamp := 100, open_ := 1, high := 1, low := 2,
             close := 1, volume := 5, provider := some "alpaca" },
           { symbol := "AAPL", timestamp := 50, open_ := 1, high := 3, low := 1,
             close := 2, volume := 5, provider := some "alpaca" }] ∧
    ¬ ((2 : ℚ) ≤ 1) ∧ ¬ ((100 : ℚ) ≤ 10) ∧ ¬ ((100 : ℚ) ≤ 50) :=
  ⟨rfl, by norm_num, by norm_num, by norm_num⟩

/-- Claim C9, amended: `get_bars` translates the vendor's entries in order
without validating them, so a successful result has non-decreasing
timestamps, timestamps within `[start, end]` and `high ≥ low` exactly when
the vendor's entries satisfy those properties. -/
theorem claim_C9 (symbol : String) (start end_ : ℚ) (timeframe : String)
    (batch : List BarJson) (mds : List MarketData)
    (hok : (AlpacaDataProvider.get_bars (some true) symbol start end_ timeframe
        (.ok batch)).result = .ok mds)
    (hhl : ∀ b ∈ batch, ∀ hv lv, b.h = some hv → b.l = some lv → lv ≤ hv)
    (hrange : ∀ b ∈ batch, ∀ tv, b.t = some tv → start ≤ tv ∧ tv ≤ end_)
    (hchain : List.Chain' barTsMono batch) :
    (∀ md ∈ mds, barInvariant start end_ md) ∧ List.Chain' tsMono mds := by
  have hloop : parseBarsLoop symbol batch = .ok mds := hok
  have hf := parseBarsLoop_forall₂ symbol batch mds hloop
  constructor
  · intro md hmd
    obtain ⟨b, hb, hpb⟩ := forall₂_mem_right hf md hmd
    obtain ⟨ht, hh, hl⟩ := parseBar_ok_fields symbol b md hpb
    exact ⟨hhl b hb _ _ hh hl, (hrange b hb _ ht).1, (hrange b hb _ ht).2⟩
  · refine chain'_of_forall₂ ?_ hf hchain
    intro a a' b b' hr hr' hS
    obtain ⟨ht, _, _⟩ := parseBar_ok_fields symbol a b hr
    obtain ⟨ht', _, _⟩ := parseBar_ok_fields symbol a' b' hr'
    exact hS _ _ ht ht'

/-- Claim C9, witness: on a concrete well-formed batch the result satisfies
the bar invariant and has non-decreasing timestamps. -/
theorem claim_C9_witness :
    barInvariant 0 10 (sampleRec 1) ∧
    List.Chain' tsMono [sampleRec 1, sampleRec 3] :=
  let h := claim_C9 "AAPL" 0 10 "1D" c9GoodBatch [sampleRec 1, sampleRec 3] rfl
    (by
      intro b hb hv lv hh hl
      rcases List.mem_cons.mp hb with rfl | hb
      · cases hh; cases hl; norm_num
      · rw [List.mem_singleton] at hb
        subst hb
        cases hh; cases hl; norm_num)
    (by
      intro b hb tv ht
      rcases List.mem_cons.mp hb with rfl | hb
      · cases ht; norm_num
      · rw [List.mem_singleton] at hb
        subst hb
        cases ht; norm_num)
    (by
      refine List.chain'_cons.mpr ⟨?_, List.chain'_singleton _⟩
      intro tv tv' h1 h2
      cases h1; cases h2; norm_num)
  ⟨h.1 (sampleRec 1) (List.mem_cons_self _ _), h.2⟩

/-- Claim C10: a provider's HTTP session is `None` until the scoped context
is entered (`__init__`), it is created on context entry (`__aenter__`) and
closed on every context exit (`__aexit__`, which the runtime invokes on
normal and exceptional exits alike); any REST operation invoked with the
session still absent fails on the attribute access with zero HTTP requests
issued — before any network request is attempted. -/
theorem claim_C10 (api_key : String) (api_secret : Option String)
    (st : ProviderState) (b : Bool) (hses : st.session = some b)
    (symbol timeframe : String) (start end_ : ℚ) (expiration : Option ℚ)
    (bresp : HttpResult (List BarJson)) (qresp : HttpResult (Option QuoteJson))
    (oresp : HttpResult Unit) :
    (MarketDataProvider.init api_key api_secret).session = none ∧
    (MarketDataProvider.aenter st).session = some true ∧
    (MarketDataProvider.aexit st).session = some false ∧
    (AlpacaDataProvider.get_bars none symbol start end_ timeframe bresp).requests
      = 0 ∧
    (AlpacaDataProvider.get_bars none symbol start end_ timeframe bresp).result =
      .error (.attributeError "NoneType object has no attribute get") ∧
    (AlpacaDataProvider.get_latest_quote none symbol qresp).requests = 0 ∧
    (AlpacaDataProvider.get_latest_quote none symbol qresp).result =
      .error (.attributeError "NoneType object has no attribute get") ∧
    (AlpacaDataProvider.get_options_chain none symbol expiration oresp).requests
      = 0 ∧
    (AlpacaDataProvider.get_options_chain none symbol expiration oresp).result =
      .error (.attributeError "NoneType object has no attribute get") := by
  refine ⟨rfl, rfl, ?_, rfl, rfl, rfl, rfl, rfl, rfl⟩
  unfold MarketDataProvider.aexit
  rw [hses]

/-- Claim C10, witness: the lifecycle facts at a concrete provider state with
an open session and concrete failing transports. -/
theorem claim_C10_witness :
    (MarketDataProvider.init "key" none).session = none ∧
    (MarketDataProvider.aenter
      { api_key := "key", api_secret := none, session := some true }).session
      = some true ∧
    (MarketDataProvider.aexit
      { api_key := "key", api_secret := none, session := some true }).session
      = some false ∧
    (AlpacaDataProvider.get_bars none "AAPL" 0 1 "1D"
        (.netError "down")).requests = 0 ∧
    (AlpacaDataProvider.get_bars none "AAPL" 0 1 "1D" (.netError "down")).result =
      .error (.attributeError "NoneType object has no attribute get") ∧
    (AlpacaDataProvider.get_latest_quote none "AAPL" (.netError "down")).requests
      = 0 ∧
    (AlpacaDataProvider.get_latest_quote none "AAPL" (.netError "down")).result =
      .error (.attributeError "NoneType object has no attribute get") ∧
    (AlpacaDataProvider.get_options_chain none "AAPL" none
        (.netError "down")).requests = 0 ∧
    (AlpacaDataProvider.get_options_chain none "AAPL" none
        (.netError "down")).result =
      .error (.attributeError "NoneType object has no attribute get") :=
  claim_C10 "key" none { api_key := "key", api_secret := none, session := some true }
    true rfl "AAPL" "1D" 0 1 none (.netError "down") (.netError "down")
    (.netError "down")

end MultiBroker
